import Mathlib

/-!
Verification of the telegram cover bot's core logic against its
natural-language specification.  The Python source is shallowly embedded:
pure computations become Lean functions, the Telegram/HTTP/PIL/mutagen
boundaries become explicit outcome datatypes, and the per-group poll state
becomes a record acted on by the handler functions.
-/

namespace CoverBot

/-! ## High-quality artwork URL derivation (api/itunes.py, lines 136-138 and 176-177)

Python's `artwork_url.replace("100x100", "1600x1600")` replaces every
non-overlapping occurrence of the size token, scanning left to right, and
returns the input unchanged when the token does not occur.  We model the
string as a list of characters. -/

/-- Token the provider embeds in thumbnail URLs (the low-resolution size). -/
def lqToken : List Char := ['1', '0', '0', 'x', '1', '0', '0']

/-- Replacement token for the high-resolution artwork. -/
def hqToken : List Char := ['1', '6', '0', '0', 'x', '1', '6', '0', '0']

/-- Embedding of `s.replace("100x100", "1600x1600")`: left-to-right,
non-overlapping replacement of each occurrence of `lqToken`. -/
def replace100 : List Char → List Char
  | [] => []
  | c :: rest =>
    if lqToken.isPrefixOf (c :: rest) then
      hqToken ++ replace100 (rest.drop 6)
    else
      c :: replace100 rest
termination_by l => l.length
decreasing_by
  · simp only [List.length_drop, List.length_cons]
    omega
  · simp only [List.length_cons]
    omega

/-- String-level wrapper used by the result parsers. -/
def replace100Str (s : String) : String := (replace100 s.toList).asString

/-- Does the size token occur anywhere in the character list? -/
def hasTok : List Char → Bool
  | [] => false
  | c :: rest => lqToken.isPrefixOf (c :: rest) || hasTok rest

/-- Relation: the second list arises from the first by replacing each
left-to-right non-overlapping occurrence of `lqToken` with `hqToken`,
copying every character outside the occurrences unchanged. -/
inductive ReplacedTok : List Char → List Char → Prop
  | nil : ReplacedTok [] []
  | keep (c : Char) (s t : List Char) :
      ¬ lqToken.isPrefixOf (c :: s) = true → ReplacedTok s t →
      ReplacedTok (c :: s) (c :: t)
  | subst (s t : List Char) :
      ReplacedTok s t → ReplacedTok (lqToken ++ s) (hqToken ++ t)

lemma replace100_nil : replace100 [] = [] := by
  simp [replace100]

lemma replace100_cons_pos (c : Char) (rest : List Char)
    (h : lqToken.isPrefixOf (c :: rest) = true) :
    replace100 (c :: rest) = hqToken ++ replace100 (rest.drop 6) := by
  rw [replace100]
  simp [h]

lemma replace100_cons_neg (c : Char) (rest : List Char)
    (h : ¬ lqToken.isPrefixOf (c :: rest) = true) :
    replace100 (c :: rest) = c :: replace100 rest := by
  rw [replace100]
  simp [h]

lemma replace100_sound (s : List Char) : ReplacedTok s (replace100 s) := by
  induction s using replace100.induct with
  | case1 =>
      rw [replace100_nil]
      exact ReplacedTok.nil
  | case2 c rest h ih =>
      rw [replace100_cons_pos c rest h]
      have hpre : lqToken <+: (c :: rest) := by
        exact (List.isPrefixOf_iff_prefix).mp h
      have hsplit : c :: rest = lqToken ++ (rest.drop 6) := by
        obtain ⟨t, ht⟩ := hpre
        have hlen : (c :: rest).drop 7 = rest.drop 6 := rfl
        have : t = (c :: rest).drop 7 := by
          have h7 := congrArg (List.drop 7) ht.symm
          simp only [lqToken] at h7
          exact ((by simpa using h7 : List.drop 6 rest = t)).symm
        rw [← ht, this, hlen]
      rw [hsplit]
      exact ReplacedTok.subst _ _ ih
  | case3 c rest h ih =>
      rw [replace100_cons_neg c rest h]
      exact ReplacedTok.keep c rest (replace100 rest) h ih

lemma replace100_no_tok (s : List Char) (h : hasTok s = false) :
    replace100 s = s := by
  induction s with
  | nil => exact replace100_nil
  | cons c rest ih =>
      rw [hasTok] at h
      simp only [Bool.or_eq_false_iff] at h
      rw [replace100_cons_neg c rest (by simp [h.1]), ih h.2]

/-! ## Group voting coordinator (handlers/group_support.py)

The per-group poll dict created in `_handle_group_search` becomes a record;
`_handle_vote`, `_handle_vote_callback`, `_handle_finalize_callback` and
`_get_winning_vote` become functions on it.  Telegram plumbing (message
editing, replies) has no effect on poll state and is omitted. -/

/-- Poll status string: `'voting'`, `'searching'`, `'completed'`. -/
inductive PollStatus
  | voting
  | searching
  | completed
deriving DecidableEq, Repr

/-- The three vote categories of the poll dict `{'song': [], 'artist': [], 'album': []}`. -/
inductive Category
  | song
  | artist
  | album
deriving DecidableEq, Repr

/-- The `poll['votes']` dict: one Python list of voter user ids per category,
in the dict's insertion order song, artist, album. -/
structure Votes where
  song : List Nat
  artist : List Nat
  album : List Nat
deriving DecidableEq, Repr

/-- One simulated search result record (from `_simulate_search_results`). -/
structure SimResult where
  title : String
  artist : String
  album : String
  coverUrl : String
deriving DecidableEq, Repr

/-- The `current_poll` dict.  `searchType` and `results` model the
`'search_type'` and `'results'` keys, absent (`none`) until finalize. -/
structure Poll where
  query : String
  messageId : Nat
  initiatorId : Nat
  votes : Votes
  status : PollStatus
  searchType : Option String
  results : Option (List SimResult)
deriving DecidableEq, Repr

/-- Poll created by `_handle_group_search` (lines 88-98): empty vote lists,
status `'voting'`, no search type or results yet. -/
def startPoll (query : String) (messageId initiatorId : Nat) : Poll :=
  ⟨query, messageId, initiatorId, ⟨[], [], []⟩, .voting, none, none⟩

/-- The removal loop (lines 140-143 / 242-245): for each category of the dict,
`if user_id in poll['votes'][c]: poll['votes'][c].remove(user_id)` — Python
`list.remove` deletes the first occurrence, which is `List.erase`. -/
def removeUser (v : Votes) (uid : Nat) : Votes :=
  ⟨v.song.erase uid, v.artist.erase uid, v.album.erase uid⟩

/-- `poll['votes'][vote_type].append(user_id)` (line 146 / 248). -/
def addVote (v : Votes) (c : Category) (uid : Nat) : Votes :=
  match c with
  | .song => { v with song := v.song ++ [uid] }
  | .artist => { v with artist := v.artist ++ [uid] }
  | .album => { v with album := v.album ++ [uid] }

/-- One vote as recorded by either handler: remove the user from every
category, then append to the requested one. -/
def recordVote (v : Votes) (uid : Nat) (c : Category) : Votes :=
  addVote (removeUser v uid) c uid

/-- Membership test of `vote_type in ['song', 'artist', 'album']`
(line 135), yielding the category. -/
def parseCategory (s : String) : Option Category :=
  if s = "song" then some .song
  else if s = "artist" then some .artist
  else if s = "album" then some .album
  else none

/-- The `/vote` command handler `_handle_vote` (lines 100-152) restricted to
its effect on the poll: rejected without mutation when status is not
`'voting'` or the vote type string is invalid, else records the vote. -/
def handleVote (p : Poll) (uid : Nat) (voteType : String) : Poll :=
  if p.status ≠ .voting then p
  else
    match parseCategory voteType with
    | none => p
    | some c => { p with votes := recordVote p.votes uid c }

/-- The button handler `_handle_vote_callback` (lines 216-253).  It does not
validate `vote_type`: the removal loop runs first, and an unknown category
then raises `KeyError` on the append, leaving the in-place removals behind. -/
def handleVoteCallback (p : Poll) (uid : Nat) (voteType : String) : Poll :=
  if p.status ≠ .voting then p
  else
    match parseCategory voteType with
    | some c => { p with votes := recordVote p.votes uid c }
    | none => { p with votes := removeUser p.votes uid }

/-- A vote arriving either through the `/vote` command or through a
callback button press. -/
inductive VoteOp
  | cmd (uid : Nat) (voteType : String)
  | cb (uid : Nat) (voteType : String)

/-- Apply one vote operation to the poll. -/
def applyVoteOp (p : Poll) : VoteOp → Poll
  | .cmd uid t => handleVote p uid t
  | .cb uid t => handleVoteCallback p uid t

/-- Apply a sequence of vote operations in order. -/
def applyVoteOps (p : Poll) (ops : List VoteOp) : Poll :=
  ops.foldl applyVoteOp p

/-- Number of categories whose vote list contains the user. -/
def catCount (v : Votes) (u : Nat) : Nat :=
  (if u ∈ v.song then 1 else 0) + (if u ∈ v.artist then 1 else 0) +
    (if u ∈ v.album then 1 else 0)

/-- Strengthened invariant: each user id occurs at most once across all
three vote lists counted with multiplicity. -/
def voteInv (v : Votes) : Prop :=
  ∀ u : Nat, v.song.count u + v.artist.count u + v.album.count u ≤ 1

lemma voteInv_start : voteInv ⟨[], [], []⟩ := by
  intro u
  simp [List.count_nil]

lemma voteInv_removeUser (v : Votes) (uid : Nat) (h : voteInv v) :
    voteInv (removeUser v uid) := by
  intro u
  have hs := h u
  rcases eq_or_ne uid u with rfl | hne
  · simp only [removeUser, List.count_erase_self]
    omega
  · simp only [removeUser, List.count_erase_of_ne hne.symm]
    exact hs

lemma count_removeUser_self (v : Votes) (uid : Nat) (h : voteInv v) :
    (removeUser v uid).song.count uid = 0 ∧
    (removeUser v uid).artist.count uid = 0 ∧
    (removeUser v uid).album.count uid = 0 := by
  have hs := h uid
  simp only [removeUser, List.count_erase_self]
  omega

lemma voteInv_recordVote (v : Votes) (uid : Nat) (c : Category) (h : voteInv v) :
    voteInv (recordVote v uid c) := by
  intro u
  have hrem := voteInv_removeUser v uid h u
  obtain ⟨h1, h2, h3⟩ := count_removeUser_self v uid h
  rcases eq_or_ne u uid with rfl | hne
  · cases c <;>
      simp only [recordVote, addVote, List.count_append, List.count_singleton',
        eq_self_iff_true, if_true] <;>
      omega
  · cases c <;>
      simp only [recordVote, addVote, List.count_append, List.count_singleton',
        if_neg (Ne.symm hne), Nat.add_zero] <;>
      omega

lemma voteInv_applyVoteOp (p : Poll) (op : VoteOp) (h : voteInv p.votes) :
    voteInv (applyVoteOp p op).votes := by
  cases op with
  | cmd uid t =>
      simp only [applyVoteOp, handleVote]
      split
      · exact h
      · cases hp : parseCategory t with
        | none => simpa [hp] using h
        | some c => simpa [hp] using voteInv_recordVote p.votes uid c h
  | cb uid t =>
      simp only [applyVoteOp, handleVoteCallback]
      split
      · exact h
      · cases hp : parseCategory t with
        | none => simpa [hp] using voteInv_removeUser p.votes uid h
        | some c => simpa [hp] using voteInv_recordVote p.votes uid c h

lemma voteInv_applyVoteOps (ops : List VoteOp) (p : Poll) (h : voteInv p.votes) :
    voteInv (applyVoteOps p ops).votes := by
  induction ops generalizing p with
  | nil => simpa [applyVoteOps] using h
  | cons op rest ih =>
      have h1 := voteInv_applyVoteOp p op h
      simpa [applyVoteOps, List.foldl_cons] using ih (applyVoteOp p op) h1

lemma catCount_le_one_of_voteInv (v : Votes) (h : voteInv v) (u : Nat) :
    catCount v u ≤ 1 := by
  have hs := h u
  have b1 : (if u ∈ v.song then 1 else 0) ≤ v.song.count u := by
    split
    · exact List.count_pos_iff.mpr (by assumption)
    · exact Nat.zero_le _
  have b2 : (if u ∈ v.artist then 1 else 0) ≤ v.artist.count u := by
    split
    · exact List.count_pos_iff.mpr (by assumption)
    · exact Nat.zero_le _
  have b3 : (if u ∈ v.album then 1 else 0) ≤ v.album.count u := by
    split
    · exact List.count_pos_iff.mpr (by assumption)
    · exact Nat.zero_le _
  simp only [catCount]
  omega

/-! ## Winning vote (`_get_winning_vote`, lines 409-438) -/

/-- Embedding of `_get_winning_vote` on the three vote counts.  Python's
`max(vote_counts, key=vote_counts.get)` walks the dict in insertion order
(song, artist, album) and keeps the first key whose count strictly exceeds
the running maximum, so it returns the first key attaining the maximum.
`list(vote_counts.values()).count(winning_count) > 1` then triggers the
explicit song / artist / album cascade. -/
def winningFromCounts (cs ca cb : Nat) : String × Nat :=
  let winType := if cs ≥ ca ∧ cs ≥ cb then "song" else if ca ≥ cb then "artist" else "album"
  let winCount := if winType = "song" then cs else if winType = "artist" then ca else cb
  let numAtMax :=
    (if cs = winCount then 1 else 0) + (if ca = winCount then 1 else 0) +
      (if cb = winCount then 1 else 0)
  let winType2 :=
    if numAtMax > 1 then
      if cs = winCount then "song"
      else if ca = winCount then "artist"
      else "album"
    else winType
  (winType2, winCount)

/-- `_get_winning_vote(votes)`: counts are the lengths of the per-category
voter lists. -/
def getWinningVote (v : Votes) : String × Nat :=
  winningFromCounts v.song.length v.artist.length v.album.length

/-- Modelled from the spec's words (the claim's characterisation, to be
compared with `getWinningVote`): the winner is the first category in the
declared order song, artist, album whose count equals the maximum count. -/
def winningVoteSpec (v : Votes) : String × Nat :=
  let cs := v.song.length
  let ca := v.artist.length
  let cb := v.album.length
  let m := max cs (max ca cb)
  (if cs = m then "song" else if ca = m then "artist" else "album", m)

lemma winningFromCounts_eq_spec (cs ca cb : Nat) :
    winningFromCounts cs ca cb =
      (if cs = max cs (max ca cb) then "song"
       else if ca = max cs (max ca cb) then "artist"
       else "album",
       max cs (max ca cb)) := by
  by_cases h1 : cs ≥ ca ∧ cs ≥ cb
  · have hm : max cs (max ca cb) = cs := by omega
    have hcs : cs = max cs (max ca cb) := hm.symm
    simp only [winningFromCounts, if_pos h1, if_pos rfl, hm, if_pos hcs.symm.symm]
    split_ifs <;> first | rfl | omega
  · by_cases h2 : ca ≥ cb
    · have hlt : cs < ca := by omega
      have hm : max cs (max ca cb) = ca := by omega
      simp only [winningFromCounts, if_neg h1, if_pos h2]
      have hns : ("artist" : String) = "song" ↔ False := by simp
      simp only [hns, if_false, if_pos rfl, hm]
      have hcsne : ¬ cs = ca := by omega
      simp only [hcsne, if_false, if_pos rfl]
      split_ifs <;> first | rfl | omega
    · have hlt1 : cs < cb := by omega
      have hlt2 : ca < cb := by omega
      have hm : max cs (max ca cb) = cb := by omega
      simp only [winningFromCounts, if_neg h1, if_neg h2]
      have hns : ("album" : String) = "song" ↔ False := by simp
      have hna : ("album" : String) = "artist" ↔ False := by simp
      simp only [hns, hna, if_false, hm]
      have hcsne : ¬ cs = cb := by omega
      have hcane : ¬ ca = cb := by omega
      simp only [hcsne, hcane, if_false, if_pos rfl]
      split_ifs <;> first | rfl | omega

/-! ## Finalize (`_handle_finalize_callback`, lines 255-306, and
`_simulate_search_results`, lines 440-502) -/

/-- Outcome reported by the finalize callback. -/
inductive FinalizeOutcome
  | notInitiator
  | alreadyClosed
  | finalized (winner : String) (count : Nat)
deriving DecidableEq, Repr

/-- The three hard-coded records built by `_simulate_search_results`. -/
def simulatedResults (q : String) : List SimResult :=
  [⟨"نتيجة 1 لـ " ++ q, "فنان 1", "ألبوم 1", "https://example.com/cover1.jpg"⟩,
   ⟨"نتيجة 2 لـ " ++ q, "فنان 2", "ألبوم 2", "https://example.com/cover2.jpg"⟩,
   ⟨"نتيجة 3 لـ " ++ q, "فنان 3", "ألبوم 3", "https://example.com/cover3.jpg"⟩]

/-- `_handle_finalize_callback` as a state transformer on the poll.  The
initiator check (line 276) runs before the status check (line 280); both
reject without touching the poll.  On success the poll passes through
`'searching'` and, via `_simulate_search_results`, ends `'completed'` with
the simulated results stored. -/
def handleFinalize (p : Poll) (uid : Nat) : Poll × FinalizeOutcome :=
  if p.initiatorId ≠ uid then (p, .notInitiator)
  else if p.status ≠ .voting then (p, .alreadyClosed)
  else
    let w := getWinningVote p.votes
    ({ p with
        status := .completed,
        searchType := some w.1,
        results := some (simulatedResults p.query) },
     .finalized w.1 w.2)

/-! ## iTunes search client (api/itunes.py)

`_search` issues one HTTP GET (media is always `"music"`, country `"US"`)
and raises on HTTP errors (`response.raise_for_status()`, line 42); no
dedicated error class exists, so errors are modelled by `PyErr`.  The
remote provider is a function from (term, entity, limit) to a response or
an HTTP failure. -/

/-- Exceptions the embedded code can raise: the `requests.HTTPError` from
`raise_for_status`, the `IndexError` from `results[0]`, and the `KeyError`
from a missing `artistId` key. -/
inductive PyErr
  | httpError (status : Nat)
  | indexError
  | keyError
deriving DecidableEq, Repr

/-- One entity object of the provider's JSON `results` array; absent keys
are `none`. -/
structure ITunesItem where
  wrapperType : Option String := none
  kind : Option String := none
  collectionType : Option String := none
  artworkUrl100 : Option String := none
  trackName : Option String := none
  artistName : Option String := none
  collectionName : Option String := none
  previewUrl : Option String := none
  trackId : Option Nat := none
  collectionId : Option Nat := none
  artistId : Option Nat := none
  releaseDate : Option String := none
  primaryGenreName : Option String := none
  trackCount : Option Nat := none
deriving DecidableEq, Repr

/-- The provider's JSON response body. -/
structure ITunesResponse where
  resultCount : Nat
  results : List ITunesItem
deriving DecidableEq, Repr

/-- The remote search endpoint: `_search(query, entity, limit)` modulo the
constant media/country parameters. -/
def Provider : Type := String → String → Nat → Except PyErr ITunesResponse

/-- One record of `_parse_song_results` (lines 140-151). -/
structure SongResult where
  title : String
  artist : String
  album : String
  coverUrl : String
  coverUrlHq : String
  previewUrl : Option String
  trackId : Option Nat
  collectionId : Option Nat
  artistId : Option Nat
  releaseDate : Option String
deriving DecidableEq, Repr

/-- One record of `_parse_album_results` (lines 179-189). -/
structure AlbumResult where
  title : String
  artist : String
  coverUrl : String
  coverUrlHq : String
  collectionId : Option Nat
  artistId : Option Nat
  trackCount : Option Nat
  releaseDate : Option String
  genre : Option String
deriving DecidableEq, Repr

/-- Python truthiness of `artwork_url`: `if not artwork_url: continue`
skips both a missing key and an empty string. -/
def truthyUrl : Option String → Option String
  | none => none
  | some s => if s = "" then none else some s

/-- `_parse_song_results` (lines 110-153): keep only items with
`wrapperType == "track"` and `kind == "song"` and a truthy artwork URL;
derive the HQ URL by the `100x100 → 1600x1600` substitution. -/
def parseSongResults (r : ITunesResponse) : List SongResult :=
  r.results.filterMap fun item =>
    if item.wrapperType = some "track" ∧ item.kind = some "song" then
      match truthyUrl item.artworkUrl100 with
      | none => none
      | some a =>
          some
            { title := item.trackName.getD "Unknown Title",
              artist := item.artistName.getD "Unknown Artist",
              album := item.collectionName.getD "Unknown Album",
              coverUrl := a,
              coverUrlHq := replace100Str a,
              previewUrl := item.previewUrl,
              trackId := item.trackId,
              collectionId := item.collectionId,
              artistId := item.artistId,
              releaseDate := item.releaseDate }
    else none

/-- `_parse_album_results` (lines 155-191): keep only items with
`wrapperType == "collection"` and `collectionType == "Album"` and a truthy
artwork URL. -/
def parseAlbumResults (r : ITunesResponse) : List AlbumResult :=
  r.results.filterMap fun item =>
    if item.wrapperType = some "collection" ∧ item.collectionType = some "Album" then
      match truthyUrl item.artworkUrl100 with
      | none => none
      | some a =>
          some
            { title := item.collectionName.getD "Unknown Album",
              artist := item.artistName.getD "Unknown Artist",
              coverUrl := a,
              coverUrlHq := replace100Str a,
              collectionId := item.collectionId,
              artistId := item.artistId,
              trackCount := item.trackCount,
              releaseDate := item.releaseDate,
              genre := item.primaryGenreName }
    else none

/-- One provider invocation: the term, entity and limit of a `_search` call. -/
structure Call where
  term : String
  entity : String
  limit : Nat
deriving DecidableEq, Repr

/-- `search_song` (lines 46-57), instrumented with the list of provider
calls it performs: one `_search(query, entity="song")` with the default
limit 10, parsed by `_parse_song_results`; an HTTP error propagates. -/
def searchSongT (api : Provider) (q : String) :
    Except PyErr (List SongResult) × List Call :=
  match api q "song" 10 with
  | .error e => (.error e, [⟨q, "song", 10⟩])
  | .ok r => (.ok (parseSongResults r), [⟨q, "song", 10⟩])

/-- `search_artist` (lines 59-80), instrumented.  First
`_search(query, entity="musicArtist", limit=1)`; on falsy `resultCount`
it falls back to a plain song search on the raw query; otherwise it reads
`results[0]["artistId"]` (IndexError / KeyError when absent) and searches
songs for that artist id with limit 20. -/
def searchArtistT (api : Provider) (q : String) :
    Except PyErr (List SongResult) × List Call :=
  match api q "musicArtist" 1 with
  | .error e => (.error e, [⟨q, "musicArtist", 1⟩])
  | .ok a =>
      if a.resultCount = 0 then
        match api q "song" 10 with
        | .error e => (.error e, [⟨q, "musicArtist", 1⟩, ⟨q, "song", 10⟩])
        | .ok r => (.ok (parseSongResults r), [⟨q, "musicArtist", 1⟩, ⟨q, "song", 10⟩])
      else
        match a.results with
        | [] => (.error .indexError, [⟨q, "musicArtist", 1⟩])
        | item :: _ =>
            match item.artistId with
            | none => (.error .keyError, [⟨q, "musicArtist", 1⟩])
            | some aid =>
                let q2 := "artistId:" ++ toString aid
                match api q2 "song" 20 with
                | .error e => (.error e, [⟨q, "musicArtist", 1⟩, ⟨q2, "song", 20⟩])
                | .ok r =>
                    (.ok (parseSongResults r), [⟨q, "musicArtist", 1⟩, ⟨q2, "song", 20⟩])

/-- `search_album` (lines 82-93), instrumented. -/
def searchAlbumT (api : Provider) (q : String) :
    Except PyErr (List AlbumResult) × List Call :=
  match api q "album" 10 with
  | .error e => (.error e, [⟨q, "album", 10⟩])
  | .ok r => (.ok (parseAlbumResults r), [⟨q, "album", 10⟩])

/-- `search_song`, result only. -/
def searchSong (api : Provider) (q : String) : Except PyErr (List SongResult) :=
  (searchSongT api q).1

/-- `search_artist`, result only. -/
def searchArtist (api : Provider) (q : String) : Except PyErr (List SongResult) :=
  (searchArtistT api q).1

/-- `search_album`, result only. -/
def searchAlbum (api : Provider) (q : String) : Except PyErr (List AlbumResult) :=
  (searchAlbumT api q).1

/-- The three `search_type` values dispatched by `_perform_search`
(handlers/search.py, lines 282-289). -/
inductive SearchType
  | song
  | artist
  | album
deriving DecidableEq, Repr

/-- Results of a search, as stored in `session['current_results']`. -/
inductive ResultsVal
  | songs (l : List SongResult)
  | albums (l : List AlbumResult)
deriving DecidableEq, Repr

/-- The search step of `_perform_search` (lines 282-289), instrumented with
the provider calls made: exactly one `search_song` / `search_artist` /
`search_album` call on the chosen type; no try/except surrounds it, so a
provider error propagates unchanged. -/
def performSearchT (api : Provider) (q : String) : SearchType →
    Except PyErr ResultsVal × List Call
  | .song =>
      let r := searchSongT api q
      (r.1.map .songs, r.2)
  | .artist =>
      let r := searchArtistT api q
      (r.1.map .songs, r.2)
  | .album =>
      let r := searchAlbumT api q
      (r.1.map .albums, r.2)

/-- The first (and, on failure, only) provider call `_perform_search`
triggers for each search type. -/
def firstCall (q : String) : SearchType → Call
  | .song => ⟨q, "song", 10⟩
  | .artist => ⟨q, "musicArtist", 1⟩
  | .album => ⟨q, "album", 10⟩

/-- A provider whose every request fails with HTTP status 500. -/
def failingApi : Provider := fun _ _ _ => .error (.httpError 500)

/-! ## Image quality validator (utils/image_quality_validator.py)

`validate_image_url` downloads and decodes an image; the network/PIL
boundary is modelled by a `FetchOutcome`.  Width/height division is exact
rational arithmetic in place of Python floats. -/

/-- Constructor thresholds of `ImageQualityValidator.__init__` (lines 21-35). -/
structure ValidatorCfg where
  minWidth : Nat
  minHeight : Nat
  preferredWidth : Nat
  preferredHeight : Nat
deriving DecidableEq, Repr

/-- The default thresholds: min 500x500, preferred 1000x1000. -/
def defaultCfg : ValidatorCfg := ⟨500, 500, 1000, 1000⟩

/-- What the download-and-decode steps of `validate_image_url` can yield:
an HTTP failure (the `requests.get` / `raise_for_status` raises before
`file_size` is set), a body PIL cannot decode (raises after `file_size` is
set), or a decoded image with its size, dimensions and format. -/
inductive FetchOutcome
  | httpFailure (msg : String)
  | decodeFailure (size : Nat) (msg : String)
  | decoded (size : Nat) (w h : Nat) (fmt : String)
deriving DecidableEq, Repr

/-- The result dict of `validate_image_url` / `validate_image_file`. -/
structure ValidationOutcome where
  isValid : Bool
  quality : String
  width : Nat
  height : Nat
  aspect : ℚ
  format : String
  fileSize : Nat
  error : Option String
deriving DecidableEq, Repr

/-- Shared classification of a decoded image (lines 70-88 / 125-143):
aspect is `width / height` (0 when height is 0); `is_valid` requires both
minimum dimensions and an aspect in [0.9, 1.1]; quality is `"high"` when
both dimensions reach the preferred size, `"medium"` when both reach the
minimum, else `"low"`. -/
def classifyDecoded (cfg : ValidatorCfg) (size w h : Nat) (fmt : String) :
    ValidationOutcome :=
  let aspect : ℚ := if 0 < h then (w : ℚ) / (h : ℚ) else 0
  let valid :=
    decide (cfg.minWidth ≤ w) && decide (cfg.minHeight ≤ h) &&
      decide ((9 : ℚ) / 10 ≤ aspect) && decide (aspect ≤ (11 : ℚ) / 10)
  let quality :=
    if cfg.preferredWidth ≤ w ∧ cfg.preferredHeight ≤ h then "high"
    else if cfg.minWidth ≤ w ∧ cfg.minHeight ≤ h then "medium"
    else "low"
  ⟨valid, quality, w, h, aspect, fmt, size, none⟩

/-- `validate_image_url` (lines 37-94).  On any exception the initial dict
survives with only `error` (and, after a successful download, `file_size`)
updated: `is_valid` stays `false` and `quality` stays `"unknown"`. -/
def validateImageUrl (cfg : ValidatorCfg) (f : FetchOutcome) : ValidationOutcome :=
  match f with
  | .httpFailure m => ⟨false, "unknown", 0, 0, 0, "unknown", 0, some m⟩
  | .decodeFailure size m => ⟨false, "unknown", 0, 0, 0, "unknown", size, some m⟩
  | .decoded size w h fmt => classifyDecoded cfg size w h fmt

/-- `validate_image_file` (lines 96-149): identical logic, with the file
size read by `os.path.getsize` instead of the download; failure of either
step leaves the initial dict with only `error` (and possibly `file_size`)
set. -/
def validateImageFile (cfg : ValidatorCfg) (f : FetchOutcome) : ValidationOutcome :=
  match f with
  | .httpFailure m => ⟨false, "unknown", 0, 0, 0, "unknown", 0, some m⟩
  | .decodeFailure size m => ⟨false, "unknown", 0, 0, 0, "unknown", size, some m⟩
  | .decoded size w h fmt => classifyDecoded cfg size w h fmt

/-! ## Image processor used on the cover-sending path
(utils/image_processor.py, `validate_image`, lines 32-60) -/

/-- The bytes handed to `ImageProcessor.validate_image`: either PIL fails
to decode/verify them, or they decode to an image of some dimensions. -/
inductive ImageBytes
  | undecodable (msg : String)
  | decodableImg (w h : Nat)
deriving DecidableEq, Repr

/-- `validate_image` returns `(is_valid, image_object, error_message)`:
decode failure yields the `Invalid image:` message, a dimension below 300
yields `Image resolution too low`, anything else is accepted. -/
def validateImage : ImageBytes → Bool × Option (Nat × Nat) × Option String
  | .undecodable m => (false, none, some ("Invalid image: " ++ m))
  | .decodableImg w h =>
      if w < 300 ∨ h < 300 then (false, none, some "Image resolution too low")
      else (true, some (w, h), none)

/-! ## Audio tag extractor (utils/audio_processor.py)

`process_audio_file` wires `_extract_metadata_and_cover` and
`_save_cover_art` together.  The mutagen decode of one file is modelled by
an `AudioFileModel`: one constructor per extension branch of the dispatch
(lines 92-186) carrying the tag fields that branch copies, plus a
constructor for a decode that raises, which the inner `except` at lines
188-190 catches, returning empty metadata and no cover. -/

/-- Embedded cover bytes: either PIL can read their dimensions, or
`Image.open` raises on them. -/
inductive CoverBytes
  | decodable (w h : Nat)
  | corrupt
deriving DecidableEq, Repr

/-- The ID3 tag object of an MP3 file: the `TIT2` / `TPE1` / `TALB` frames
and the first `APIC` picture frame, when present. -/
structure ID3Tags where
  tit2 : Option String := none
  tpe1 : Option String := none
  talb : Option String := none
  apic : Option CoverBytes := none
deriving DecidableEq, Repr

/-- Decode outcome of one audio file, by extension branch. -/
inductive AudioFileModel
  | mp3 (tags : Option ID3Tags)
  | mp4 (title artist album : Option String) (cover : Option CoverBytes)
  | flac (title artist album : Option String) (pics : List CoverBytes)
  | ogg (title artist album : Option String)
  | otherFormat (pairs : List (String × String))
  | decodeRaises
deriving DecidableEq, Repr

/-- Metadata dict built by inserting `title`, `artist`, `album` in that
order, each only when its tag is present. -/
def buildMeta (title artist album : Option String) : List (String × String) :=
  (match title with | some t => [("title", t)] | none => []) ++
    (match artist with | some a => [("artist", a)] | none => []) ++
    (match album with | some al => [("album", al)] | none => [])

/-- `_extract_metadata_and_cover` (lines 76-191): per-extension field
mapping; OGG never yields a cover; the generic reader copies scalar tags
and never extracts a cover; a decode exception is caught by the inner
`except` and yields empty metadata with no cover. -/
def extractMetadataAndCover (f : AudioFileModel) :
    List (String × String) × Option CoverBytes :=
  match f with
  | .mp3 none => ([], none)
  | .mp3 (some t) => (buildMeta t.tit2 t.tpe1 t.talb, t.apic)
  | .mp4 t a al c => (buildMeta t a al, c)
  | .flac t a al pics => (buildMeta t a al, pics.head?)
  | .ogg t a al => (buildMeta t a al, none)
  | .otherFormat pairs => (pairs, none)
  | .decodeRaises => ([], none)

/-- `_save_cover_art` (lines 193-228): assesses quality by sequential
threshold upgrades, or returns `(None, "none")` when the cover bytes
cannot be opened. -/
def saveCoverArt (c : CoverBytes) : Option String × String :=
  match c with
  | .corrupt => (none, "none")
  | .decodable w h =>
      let q := "low"
      let q := if 500 ≤ w ∧ 500 ≤ h then "medium" else q
      let q := if 1000 ≤ w ∧ 1000 ≤ h then "high" else q
      (some "cover.jpg", q)

/-- The result dict of `process_audio_file`. -/
structure AudioResult where
  success : Bool
  metadata : List (String × String)
  coverPath : Option String
  coverQuality : String
  error : Option String
deriving DecidableEq, Repr

/-- `process_audio_file` (lines 36-74): success iff the metadata dict is
truthy (non-empty); the cover fields are set only when a cover was
extracted and saved; nothing in the body can raise (both callees catch
their own exceptions), so the outer handler never runs and `error` stays
`None`. -/
def processAudioFile (f : AudioFileModel) : AudioResult :=
  let e := extractMetadataAndCover f
  let success := e.1 ≠ []
  let cover :=
    match e.2 with
    | none => (none, "none")
    | some cb =>
        match saveCoverArt cb with
        | (some p, q) => (some p, q)
        | (none, _) => (none, "none")
  ⟨success, e.1, cover.1, cover.2, none⟩

/-! ## Claim theorems -/

/-- C1: for every group poll and every sequence of vote operations (by
command or by callback), after each vote completes no user id appears in
more than one of the three category vote sets: each vote first removes the
user id from every category's list and then appends it to the requested
category. -/
theorem group_vote_single_category (q : String) (mid uid0 : Nat)
    (ops : List VoteOp) (n : Nat) (u : Nat) :
    catCount (applyVoteOps (startPoll q mid uid0) (ops.take n)).votes u ≤ 1 :=
  catCount_le_one_of_voteInv _
    (voteInv_applyVoteOps (ops.take n) (startPoll q mid uid0) voteInv_start) u

/-- C2: the winning category returned by `_get_winning_vote` is the
category with the maximum vote count, and on ties the first of song,
artist, album among the tied categories; in particular votes
{song:2, artist:2, album:0} yield song and {song:0, artist:3, album:3}
yield artist. -/
theorem winning_vote_priority :
    (∀ v : Votes, getWinningVote v = winningVoteSpec v) ∧
    getWinningVote ⟨[1, 2], [3, 4], []⟩ = ("song", 2) ∧
    getWinningVote ⟨[], [1, 2, 3], [4, 5, 6]⟩ = ("artist", 3) := by
  refine ⟨fun v => ?_, by rfl, by rfl⟩
  simp only [getWinningVote, winningVoteSpec]
  exact winningFromCounts_eq_spec _ _ _

/-- C3: a finalize request by any user other than the poll's initiator, or
while the poll status is not `'voting'`, is rejected and leaves the poll
state (status, search type, votes, results) unchanged. -/
theorem finalize_rejected_unchanged (p : Poll) (uid : Nat)
    (h : uid ≠ p.initiatorId ∨ p.status ≠ .voting) :
    (handleFinalize p uid).1 = p ∧
      ((handleFinalize p uid).2 = .notInitiator ∨
        (handleFinalize p uid).2 = .alreadyClosed) := by
  by_cases h1 : p.initiatorId ≠ uid
  · simp [handleFinalize, h1]
  · rcases h with h | h
    · exact absurd (not_not.mp h1).symm h
    · simp [handleFinalize, h1, h]

/-- Witness for C3: user 2 tries to finalize a poll initiated by user 1. -/
theorem finalize_rejected_unchanged_witness :
    ((2 : Nat) ≠ (startPoll "q" 9 1).initiatorId ∨
        (startPoll "q" 9 1).status ≠ .voting) ∧
    (handleFinalize (startPoll "q" 9 1) 2).1 = startPoll "q" 9 1 ∧
      ((handleFinalize (startPoll "q" 9 1) 2).2 = .notInitiator ∨
        (handleFinalize (startPoll "q" 9 1) 2).2 = .alreadyClosed) :=
  ⟨Or.inl (by decide),
    finalize_rejected_unchanged (startPoll "q" 9 1) 2 (Or.inl (by decide))⟩

/-- C4: the high-quality URL derivation replaces occurrences of
`100x100` by `1600x1600`, copying every character outside the replaced
occurrences unchanged, and returns any input without the token unchanged
(no error path exists: the function is total). -/
theorem hq_url_replacement :
    (∀ s : List Char, ReplacedTok s (replace100 s)) ∧
    (∀ s : List Char, hasTok s = false → replace100 s = s) ∧
    replace100 ("https://a.mz/thumb/100x100bb.jpg".toList) =
      "https://a.mz/thumb/1600x1600bb.jpg".toList := by
  refine ⟨replace100_sound, replace100_no_tok, ?_⟩
  simp +decide [replace100, lqToken, hqToken]

/-- Witness for C4: a URL without the size token is returned unchanged. -/
theorem hq_url_replacement_witness :
    hasTok ("https://a.mz/art/cover600.jpg".toList) = false ∧
    replace100 ("https://a.mz/art/cover600.jpg".toList) =
      "https://a.mz/art/cover600.jpg".toList :=
  ⟨by decide, hq_url_replacement.2.1 _ (by decide)⟩

/-- C5: with the default thresholds, a decoded image is classified
`"high"` iff both dimensions reach 1000, `"medium"` iff both reach 500 but
not both reach 1000, `"low"` otherwise; `is_valid` is false whenever a
dimension is below 500 or the aspect falls outside [0.9, 1.1];
`validate_image_file` agrees with `validate_image_url`; and the spec's
examples 1200x1200, 600x600, 400x400 and 1200x800 classify as stated. -/
theorem image_quality_classification (size w h : Nat) (fmt : String) :
    ((validateImageUrl defaultCfg (.decoded size w h fmt)).quality = "high" ↔
        1000 ≤ w ∧ 1000 ≤ h) ∧
    ((validateImageUrl defaultCfg (.decoded size w h fmt)).quality = "medium" ↔
        ((500 ≤ w ∧ 500 ≤ h) ∧ ¬(1000 ≤ w ∧ 1000 ≤ h))) ∧
    ((validateImageUrl defaultCfg (.decoded size w h fmt)).quality = "low" ↔
        ¬(500 ≤ w ∧ 500 ≤ h)) ∧
    ((w < 500 ∨ h < 500 ∨
        (validateImageUrl defaultCfg (.decoded size w h fmt)).aspect < 9 / 10 ∨
        (11 : ℚ) / 10 < (validateImageUrl defaultCfg (.decoded size w h fmt)).aspect) →
      (validateImageUrl defaultCfg (.decoded size w h fmt)).isValid = false) ∧
    validateImageFile defaultCfg (.decoded size w h fmt) =
      validateImageUrl defaultCfg (.decoded size w h fmt) ∧
    (validateImageUrl defaultCfg (.decoded 0 1200 1200 "JPEG")).quality = "high" ∧
    (validateImageUrl defaultCfg (.decoded 0 600 600 "JPEG")).quality = "medium" ∧
    (validateImageUrl defaultCfg (.decoded 0 400 400 "JPEG")).quality = "low" ∧
    (validateImageUrl defaultCfg (.decoded 0 1200 800 "JPEG")).isValid = false := by
  refine ⟨?_, ?_, ?_, ?_, rfl, rfl, rfl, rfl, ?_⟩
  · simp only [validateImageUrl, classifyDecoded, defaultCfg]
    split_ifs <;> simp_all
  · simp only [validateImageUrl, classifyDecoded, defaultCfg]
    split_ifs <;> simp_all <;> omega
  · simp only [validateImageUrl, classifyDecoded, defaultCfg]
    split_ifs <;> simp_all <;> omega
  · simp only [validateImageUrl, classifyDecoded, defaultCfg]
    intro hd
    rcases hd with hd | hd | hd | hd
    · have hw : ¬ (500 ≤ w) := by omega
      simp [hw]
    · have hh : ¬ (500 ≤ h) := by omega
      simp [hh]
    · have ha : ¬ ((9 : ℚ) / 10 ≤ if 0 < h then (w : ℚ) / (h : ℚ) else 0) :=
        not_le.mpr hd
      simp [ha]
    · have ha : ¬ ((if 0 < h then (w : ℚ) / (h : ℚ) else 0) ≤ (11 : ℚ) / 10) :=
        not_le.mpr hd
      simp [ha]
  · simp only [validateImageUrl, classifyDecoded, defaultCfg]
    norm_num

/-- Witness for C5: 1200x800 has aspect 1.5, outside [0.9, 1.1], and is
flagged invalid despite its pixel count. -/
theorem image_quality_classification_witness :
    ((1200 : Nat) < 500 ∨ (800 : Nat) < 500 ∨
      (validateImageUrl defaultCfg (.decoded 0 1200 800 "J")).aspect < 9 / 10 ∨
      (11 : ℚ) / 10 < (validateImageUrl defaultCfg (.decoded 0 1200 800 "J")).aspect) ∧
    (validateImageUrl defaultCfg (.decoded 0 1200 800 "J")).isValid = false := by
  have hyp : ((1200 : Nat) < 500 ∨ (800 : Nat) < 500 ∨
      (validateImageUrl defaultCfg (.decoded 0 1200 800 "J")).aspect < 9 / 10 ∨
      (11 : ℚ) / 10 < (validateImageUrl defaultCfg (.decoded 0 1200 800 "J")).aspect) := by
    refine Or.inr (Or.inr (Or.inr ?_))
    simp only [validateImageUrl, classifyDecoded, defaultCfg]
    norm_num
  exact ⟨hyp, (image_quality_classification 0 1200 800 "J").2.2.2.1 hyp⟩

/-- C6: when the artist-identity lookup reports zero results, the artist
search returns exactly the result of a plain song search on the same raw
query. -/
theorem artist_search_fallback (api : Provider) (q : String)
    (a : ITunesResponse) (h1 : api q "musicArtist" 1 = .ok a)
    (h2 : a.resultCount = 0) :
    searchArtist api q = searchSong api q := by
  cases hr : api q "song" 10 <;>
    simp [searchArtist, searchSong, searchArtistT, searchSongT, h1, h2, hr]

/-- Provider stub for the C6 witness: the artist-entity lookup finds
nothing; the song-entity search returns one track. -/
def emptyArtistApi : Provider := fun _ e _ =>
  if e = "musicArtist" then .ok ⟨0, []⟩
  else
    .ok ⟨1, [{ wrapperType := some "track", kind := some "song",
               artworkUrl100 := some "https://a.mz/100x100bb.jpg" }]⟩

/-- Witness for C6 at the stub provider. -/
theorem artist_search_fallback_witness :
    emptyArtistApi "Queen" "musicArtist" 1 = .ok ⟨0, []⟩ ∧
    (⟨0, []⟩ : ITunesResponse).resultCount = 0 ∧
    searchArtist emptyArtistApi "Queen" = searchSong emptyArtistApi "Queen" :=
  ⟨rfl, rfl, artist_search_fallback emptyArtistApi "Queen" ⟨0, []⟩ rfl rfl⟩

/-- Counterexample for C7: with a provider that always fails, a song
search performs exactly one provider call (entity `"song"`) and propagates
the error; no second call with a fallback search type is ever issued, so
the claimed retry-once song→artist→album fallback chain does not exist. -/
theorem provider_error_no_fallback_counterexample :
    performSearchT failingApi "Bohemian Rhapsody" .song =
      (.error (.httpError 500), [⟨"Bohemian Rhapsody", "song", 10⟩]) ∧
    (performSearchT failingApi "Bohemian Rhapsody" .song).2.length = 1 :=
  ⟨rfl, rfl⟩

/-- C7 as amended: when the first provider call of a search fails, the
error propagates to the caller unchanged, exactly that one provider call
is made (no retry, no fallback search type), and the failure is never
reported as an empty result list. -/
theorem provider_error_propagates_no_retry (api : Provider) (q : String)
    (st : SearchType) (e : PyErr)
    (h : api (firstCall q st).term (firstCall q st).entity (firstCall q st).limit
      = .error e) :
    performSearchT api q st = (.error e, [firstCall q st]) := by
  cases st <;>
    simp only [firstCall] at h <;>
    simp [performSearchT, searchSongT, searchArtistT, searchAlbumT, firstCall, h, Except.map]

/-- Witness for the amended C7 at the always-failing provider. -/
theorem provider_error_propagates_no_retry_witness :
    failingApi (firstCall "q" .artist).term (firstCall "q" .artist).entity
        (firstCall "q" .artist).limit = .error (.httpError 500) ∧
    performSearchT failingApi "q" .artist =
      (.error (.httpError 500), [firstCall "q" .artist]) :=
  ⟨rfl, provider_error_propagates_no_retry failingApi "q" .artist (.httpError 500) rfl⟩

/-- Counterexample for C8: an undecodable download is reported with
quality `"unknown"`, not `"none"`; no `"none"` tier exists in
`validate_image_url`. -/
theorem undecodable_quality_counterexample :
    (validateImageUrl defaultCfg
        (.decodeFailure 10 "cannot identify image file")).quality = "unknown" ∧
    (validateImageUrl defaultCfg
        (.decodeFailure 10 "cannot identify image file")).quality ≠ "none" :=
  ⟨rfl, by decide⟩

/-- C8 as amended: the quality value `"unknown"` is reserved exactly for
the inputs from which no image could be decoded (HTTP failure or decode
failure); every decoded image gets `"high"`, `"medium"` or `"low"`. -/
theorem quality_unknown_iff_undecoded (cfg : ValidatorCfg) (f : FetchOutcome) :
    (validateImageUrl cfg f).quality = "unknown" ↔
      ∀ size w h fmt, f ≠ .decoded size w h fmt := by
  cases f with
  | httpFailure m => simp [validateImageUrl]
  | decodeFailure s m => simp [validateImageUrl]
  | decoded s w h fmt =>
      simp only [validateImageUrl, classifyDecoded]
      constructor
      · intro hq
        exfalso
        split_ifs at hq <;> simp_all
      · intro hall
        exact absurd rfl (hall s w h fmt)

/-- Counterexample for C9: a decode exception inside
`_extract_metadata_and_cover` is swallowed by its inner handler, so the
result has success false but a null error field, contradicting the claimed
non-null error. -/
theorem audio_decode_error_counterexample :
    (processAudioFile .decodeRaises).success = false ∧
    (processAudioFile .decodeRaises).error = none :=
  ⟨rfl, rfl⟩

/-- C9 as amended: any decode exception is caught and surfaces as a result
with success false, but the error field remains `None` (the inner handler
swallows the exception before the outer error-recording handler sees it);
a result with at least one decoded metadata field is reported with success
true even when other fields or the cover are missing. -/
theorem audio_result_wiring :
    (∀ f : AudioFileModel, (processAudioFile f).error = none) ∧
    (processAudioFile AudioFileModel.decodeRaises).success = false ∧
    (∀ f : AudioFileModel, (extractMetadataAndCover f).1 ≠ [] →
      (processAudioFile f).success = true) := by
  refine ⟨fun f => rfl, rfl, fun f h => ?_⟩
  simpa [processAudioFile] using h

/-- Witness for the amended C9: a file with only a title decodes to
non-empty metadata and is reported successful with no cover. -/
theorem audio_result_wiring_witness :
    (extractMetadataAndCover (.mp4 (some "Title") none none none)).1 ≠ [] ∧
    (processAudioFile (.mp4 (some "Title") none none none)).success = true :=
  ⟨by decide, audio_result_wiring.2.2 _ (by decide)⟩

/-- C10: `ImageProcessor.validate_image`, the validator used by
`_send_cover_image`, accepts exactly the decodable images with both
dimensions at least 300 (no aspect gate), reports an error message on
every rejection, and its thresholds differ from the quality validator's
500-pixel near-square policy: 400x400 and 1200x800 pass here but fail
there. -/
theorem send_path_validate_image (d : ImageBytes) :
    ((validateImage d).1 = true ↔
        ∃ w h, d = .decodableImg w h ∧ 300 ≤ w ∧ 300 ≤ h) ∧
    ((validateImage d).1 = false → (validateImage d).2.2 ≠ none) ∧
    (validateImage (.decodableImg 400 400)).1 = true ∧
    (validateImageUrl defaultCfg (.decoded 0 400 400 "JPEG")).isValid = false ∧
    (validateImage (.decodableImg 1200 800)).1 = true ∧
    (validateImageUrl defaultCfg (.decoded 0 1200 800 "JPEG")).isValid = false := by
  refine ⟨?_, ?_, rfl, ?_, rfl, ?_⟩
  · cases d with
    | undecodable m => simp [validateImage]
    | decodableImg w h =>
        by_cases hc : w < 300 ∨ h < 300
        · simp only [validateImage, if_pos hc]
          simp only [Bool.false_eq_true, false_iff]
          intro hex
          rcases hex with ⟨w2, h2, heq, hw2, hh2⟩
          cases heq
          omega
        · simp only [validateImage, if_neg hc]
          simp only [true_iff]
          exact ⟨w, h, rfl, by omega, by omega⟩
  · cases d with
    | undecodable m => simp [validateImage]
    | decodableImg w h =>
        simp only [validateImage]
        split_ifs <;> simp
  · have hw : ¬ ((500 : Nat) ≤ 400) := by omega
    simp [validateImageUrl, classifyDecoded, defaultCfg, hw]
  · simp only [validateImageUrl, classifyDecoded, defaultCfg]
    norm_num

/-- Witness for C10: a 100x100 image is rejected with an error message. -/
theorem send_path_validate_image_witness :
    (validateImage (.decodableImg 100 100)).1 = false ∧
    (validateImage (.decodableImg 100 100)).2.2 ≠ none :=
  ⟨rfl, (send_path_validate_image (.decodableImg 100 100)).2.1 rfl⟩

end CoverBot
